import Mathlib

/-!
Shallow embedding of the ExpenseBot dialogue manager
(`src/app/intelligent_agent/graph.py`, `src/app/intelligent_agent/memory.py`,
`src/app/crud.py`).

Modelling conventions:
- Python floats (expense amounts, timestamps) are modelled as rationals `ℚ`;
  the claims under scrutiny involve only exact decimal arithmetic.
- Python strings are Lean `String`s; inside `parse_amount` and the router's
  JSON extraction, strings are manipulated as `List Char` (Python `str` is a
  character sequence).
- Python truthiness is modelled explicitly: a numeric slot is truthy iff it is
  present and non-zero (`truthyQ`), a text slot iff present and non-empty
  (`truthyS`).
- The database session is modelled as a `Ledger`: the list of rows created by
  `crud.create_expense`, plus a `fail` flag modelling the store throwing an
  exception (caught by the handlers' `try/except`).
- User-visible response text, logging, and the LLM prompt construction are not
  modelled; tool results keep their `status` tag and structured fields.
-/

/-- Truthiness of an optional numeric value (Python: `None` and `0` are falsy). -/
def truthyQ : Option ℚ → Bool
  | none => false
  | some q => q != 0

/-- Truthiness of an optional string value (Python: `None` and `""` are falsy). -/
def truthyS : Option String → Bool
  | none => false
  | some s => s != ""

/-- The transient slot-filling record stored per user
(`memory.set_pending_expense` stores a dict with keys amount/item/category). -/
structure PendingExpense where
  amount : Option ℚ
  item : Option String
  category : Option String
deriving DecidableEq, Repr

/-- The stop-word list of `log_expense_tool` (graph.py line 397). -/
def stopTokens : List String := ["i", "a", "e", "o", "u", "spent", "bought", "paid"]

/-- Python `str.strip` on a character list: drop whitespace from both ends. -/
def pyStrip (l : List Char) : List Char :=
  ((l.dropWhile Char.isWhitespace).reverse.dropWhile Char.isWhitespace).reverse

/-- Python `str.lower` on a character list (ASCII case folding). -/
def pyLower (l : List Char) : List Char := l.map Char.toLower

/-- Python `str.replace (c, "")` for a single character: remove all occurrences. -/
def removeAll (c : Char) (l : List Char) : List Char := l.filter (fun d => d ≠ c)

/-- All characters are decimal digits. -/
def allDigits (l : List Char) : Bool := l.all Char.isDigit

/-- Numeric value of a digit string, most significant digit first. -/
def digitsVal (l : List Char) : ℕ := l.foldl (fun a c => a * 10 + (c.toNat - 48)) 0

/-- Python `float(s)` restricted to plain decimal literals: optional sign,
integer part, optional fractional part; anything else fails. Exponents,
`inf`/`nan` and underscore separators are not modelled (no claim uses them). -/
def pyFloat? (l : List Char) : Option ℚ :=
  let t := pyStrip l
  let sgn : ℚ := if t.head? = some '-' then -1 else 1
  let u := if t.head? = some '-' ∨ t.head? = some '+' then t.tail else t
  let intPart := u.takeWhile (fun c => c ≠ '.')
  let rest := u.dropWhile (fun c => c ≠ '.')
  match rest with
  | [] => if intPart ≠ [] ∧ allDigits intPart then some (sgn * digitsVal intPart) else none
  | _ :: frac =>
    if (intPart ≠ [] ∨ frac ≠ []) ∧ allDigits intPart ∧ allDigits frac then
      some (sgn * ((digitsVal intPart : ℚ) + (digitsVal frac : ℚ) / (10 : ℚ) ^ frac.length))
    else none

/-- Embedding of `parse_amount` (graph.py lines 885-913): `None`/empty input
yields `none`; a string containing `k` has all `k`s and commas removed and the
remainder times 1000; likewise `m` and 1000000; otherwise commas are removed
and the remainder parsed; an unparsable remainder yields `none`. -/
def parse_amount (amount_str : Option (List Char)) : Option ℚ :=
  match amount_str with
  | none => none
  | some s =>
    if s = [] then none
    else
      let t := pyStrip (pyLower s)
      if 'k' ∈ t then
        (pyFloat? (removeAll ',' (removeAll 'k' t))).map (fun q => q * 1000)
      else if 'm' ∈ t then
        (pyFloat? (removeAll ',' (removeAll 'm' t))).map (fun q => q * 1000000)
      else
        pyFloat? (removeAll ',' t)

/-- The category lookup table of `map_category` (graph.py lines 921-1005), in
source order. The Python dict literal contains duplicate keys (e.g. `water`,
`gas`, `ticket`, `candy`); Python keeps the LAST binding of a duplicate key,
which `pyDictGet` below reproduces. -/
def category_map : List (String × String) := [
  ("breakfast", "food"), ("lunch", "food"), ("dinner", "food"),
  ("pizza", "food"), ("burger", "food"), ("sandwich", "food"),
  ("coffee", "food"), ("tea", "food"), ("groceries", "food"),
  ("restaurant", "food"), ("meal", "food"), ("foodpanda", "food"),
  ("juice", "food"), ("milkshake", "food"), ("drinks", "food"),
  ("popcorn", "food"), ("snack", "food"), ("chips", "food"),
  ("candy", "food"), ("chocolate", "food"), ("ice cream", "food"),
  ("cake", "food"), ("bread", "food"), ("milk", "food"),
  ("eggs", "food"), ("meat", "food"), ("fish", "food"),
  ("vegetables", "food"), ("fruits", "food"), ("rice", "food"),
  ("pasta", "food"), ("soup", "food"), ("sweets", "food"),
  ("sweet", "food"), ("candy", "food"), ("chocolate bar", "food"),
  ("water", "food"), ("water bottles", "food"), ("water bottle", "food"),
  ("bottled water", "food"), ("apple", "food"), ("apples", "food"),
  ("carrot", "food"), ("carrots", "food"), ("banana", "food"),
  ("bananas", "food"), ("orange", "food"), ("oranges", "food"),
  ("tomato", "food"), ("tomatoes", "food"), ("potato", "food"),
  ("potatoes", "food"), ("onion", "food"), ("onions", "food"),
  ("garlic", "food"), ("ginger", "food"), ("car", "transportation"),
  ("bus", "transportation"), ("taxi", "transportation"), ("uber", "transportation"),
  ("fuel", "transportation"), ("gas", "transportation"), ("bus fare", "transportation"),
  ("fare", "transportation"), ("ticket", "transportation"), ("train", "transportation"),
  ("train ticket", "transportation"), ("metro", "transportation"), ("subway", "transportation"),
  ("bike", "transportation"), ("motorcycle", "transportation"), ("phone", "electronics"),
  ("laptop", "electronics"), ("computer", "electronics"), ("charger", "electronics"),
  ("headphones", "electronics"), ("watch", "electronics"), ("tablet", "electronics"),
  ("camera", "electronics"), ("speaker", "electronics"), ("keyboard", "electronics"),
  ("mouse", "electronics"), ("gaming mouse", "electronics"), ("monitor", "electronics"),
  ("printer", "electronics"), ("scanner", "electronics"), ("webcam", "electronics"),
  ("microphone", "electronics"), ("router", "electronics"), ("phone balance", "communication"),
  ("balance", "communication"), ("calling", "communication"), ("mobile", "communication"),
  ("sim", "communication"), ("internet", "communication"), ("data", "communication"),
  ("sms", "communication"), ("call", "communication"), ("notebook", "stationery"),
  ("pen", "stationery"), ("pencil", "stationery"), ("book", "stationery"),
  ("paper", "stationery"), ("folder", "stationery"), ("binder", "stationery"),
  ("stapler", "stationery"), ("scissors", "stationery"), ("shirt", "clothing"),
  ("pants", "clothing"), ("shoes", "clothing"), ("dress", "clothing"),
  ("jacket", "clothing"), ("leather jacket", "clothing"), ("coat", "clothing"),
  ("sweater", "clothing"), ("jeans", "clothing"), ("hat", "clothing"),
  ("cap", "clothing"), ("scarf", "clothing"), ("gloves", "clothing"),
  ("socks", "clothing"), ("underwear", "clothing"), ("belt", "clothing"),
  ("chair", "furniture"), ("table", "furniture"), ("bed", "furniture"),
  ("sofa", "furniture"), ("desk", "furniture"), ("lamp", "furniture"),
  ("mirror", "furniture"), ("shelf", "furniture"), ("cabinet", "furniture"),
  ("rent", "housing"), ("apartment", "housing"), ("house", "housing"),
  ("electricity", "housing"), ("water", "housing"), ("gas", "housing"),
  ("maintenance", "housing"), ("repair", "housing"), ("movie", "entertainment"),
  ("cinema", "entertainment"), ("game", "entertainment"), ("concert", "entertainment"),
  ("ticket", "entertainment"), ("toy", "entertainment"), ("toy car", "entertainment"),
  ("video game", "entertainment"), ("music", "entertainment"), ("theater", "entertainment"),
  ("show", "entertainment"), ("amusement", "entertainment"), ("board game", "entertainment"),
  ("chess", "entertainment"), ("monopoly", "entertainment"), ("ludo", "entertainment"),
  ("scrabble", "entertainment"), ("puzzle", "entertainment"), ("medicine", "health"),
  ("doctor", "health"), ("hospital", "health"), ("pharmacy", "health"),
  ("vitamins", "health"), ("dental", "health"), ("eye care", "health"),
  ("glasses", "health"), ("contact lenses", "health"), ("baseball", "sports"),
  ("baseball bat", "sports"), ("football", "sports"), ("basketball", "sports"),
  ("tennis", "sports"), ("gym", "sports"), ("fitness", "sports"),
  ("workout", "sports"), ("exercise", "sports"), ("cricket", "sports"),
  ("cricket kit", "sports"), ("cricket bat", "sports"), ("cricket ball", "sports"),
  ("cricket equipment", "sports"), ("sports kit", "sports"), ("badminton", "sports"),
  ("badminton racket", "sports"), ("badminton kit", "sports"), ("swimming", "sports"),
  ("swimming gear", "sports"), ("yoga", "sports"), ("yoga mat", "sports"),
  ("weights", "sports"), ("dumbbells", "sports"), ("keychain", "misc"),
  ("gift", "gift"), ("donation", "misc"), ("sent to", "gift"),
  ("transfer", "gift")]

/-- Dictionary lookup with Python duplicate-key semantics: the last binding of
a key in the literal wins, so look the key up in the reversed list. -/
def pyDictGet (l : List (String × String)) (k : String) : Option String :=
  l.reverse.lookup k

/-- Embedding of `map_category` (graph.py lines 915-1006): a falsy item
(`None` or `""`) maps to `"misc"`, otherwise the lowercased item is looked up
in `category_map` with default `"misc"`. -/
def map_category (item : Option String) : String :=
  match item with
  | none => "misc"
  | some s =>
    if s = "" then "misc"
    else (pyDictGet category_map (String.mk (pyLower s.toList))).getD "misc"

/-- A row created by `crud.create_expense` (crud.py lines 28-33). The category
id is modelled by the category name produced by `crud.get_or_create_category`. -/
structure LedgerExpense where
  user_id : ℕ
  category : String
  amount : ℚ
  note : String
deriving DecidableEq, Repr

/-- The database session: rows created so far, plus a flag modelling the store
throwing on the next write (caught by the handlers' `try/except`). -/
structure Ledger where
  expenses : List LedgerExpense
  fail : Bool
deriving DecidableEq, Repr

/-- Merge of the amount slot (graph.py lines 374-377): when a pending expense
exists and the extracted amount is falsy, fall back to the pending amount. -/
def merge_amount (pending : Option PendingExpense) (amount : Option ℚ) : Option ℚ :=
  match pending with
  | some p => if truthyQ amount then amount else p.amount
  | none => amount

/-- Merge of the item slot (graph.py lines 379-382): when a pending expense
exists and the extracted item is falsy, fall back to the pending item. -/
def merge_item (pending : Option PendingExpense) (item : Option String) : Option String :=
  match pending with
  | some p => if truthyS item then item else p.item
  | none => item

/-- The slot merge performed by `log_expense_tool` (graph.py lines 374-382 and
413-417): amount and item fall back to the pending expense, while the category
slot is whatever the extractor produced — the pending category is never read. -/
def merge_slots (pending : Option PendingExpense) (cand : PendingExpense) : PendingExpense :=
  ⟨merge_amount pending cand.amount, merge_item pending cand.item, cand.category⟩

/-- The ambiguity test of graph.py line 397: the stripped message has at most
three characters, or lowercases to one of the stop tokens. -/
def is_unclear_message (msg : String) : Bool :=
  let t := pyStrip msg.toList
  t.length ≤ 3 || stopTokens.contains (String.mk (pyLower t))

/-- Python `category or "misc"` applied to the optional category slot. -/
def categoryOrMisc (category : Option String) : String :=
  match category with
  | some c => if c = "" then "misc" else c
  | none => "misc"

/-- Result of `log_expense_tool`: the tool result's status tag and missing-slot
list, the pending expense left in memory, and the database after the call. -/
structure LogToolOutput where
  status : String
  missing : List String
  pending : Option PendingExpense
  db : Ledger
deriving DecidableEq, Repr

/-- Embedding of `log_expense_tool` (graph.py lines 349-479). An invalid user
id returns an error. Otherwise amount and item are merged with the pending
expense; a falsy merged amount or item is recorded as missing; an unclear
message (graph.py line 397) clears the pending expense and forces both slots
missing. On a non-empty missing list the merged data is re-stored as pending
when amount or item is truthy, else the pending state is cleared. On complete
slots the category is auto-mapped when falsy, and the commit (category
creation plus `crud.create_expense`) either throws (`db.fail`, caught: the
error leaves the pending expense and the ledger untouched) or appends one row
and clears the pending expense. Response text is not modelled. -/
def log_expense_tool (userId : Option ℕ) (amount0 : Option ℚ) (item0 : Option String)
    (category0 : Option String) (pending : Option PendingExpense) (msg : String)
    (db : Ledger) : LogToolOutput :=
  match userId with
  | none => ⟨"error", [], pending, db⟩
  | some uid =>
    let amount := merge_amount pending amount0
    let item := merge_item pending item0
    let missing0 := (if truthyQ amount then [] else ["amount"])
      ++ (if truthyS item then [] else ["item"])
    let missing := if is_unclear_message msg then ["amount", "item"] else missing0
    if missing ≠ [] then
      if truthyQ amount || truthyS item then
        ⟨"incomplete", missing, some ⟨amount, item, category0⟩, db⟩
      else
        ⟨"incomplete", missing, none, db⟩
    else
      let category := if !truthyS category0 && truthyS item
        then some (map_category item) else category0
      if db.fail then ⟨"error", [], pending, db⟩
      else
        let row : LedgerExpense := ⟨uid, categoryOrMisc category, amount.getD 0, item.getD ""⟩
        ⟨"success", [], none, ⟨db.expenses ++ [row], db.fail⟩⟩

/-- Embedding of `clarification_tool` (graph.py lines 692-708): it only
produces a canned response (not modelled) and a `clarification_needed` status;
it never touches the pending expense or the database. -/
def clarification_tool (pending : Option PendingExpense) : String × Option PendingExpense :=
  ("clarification_needed", pending)

/-- Pending-expense effect of `final_response_node` (graph.py lines 816-824):
after a successful `log_expense` the pending expense is cleared; every other
intent/status combination leaves it untouched. -/
def final_response_pending (intent : String) (status : String)
    (pending : Option PendingExpense) : Option PendingExpense :=
  if intent = "log_expense" ∧ status = "success" then none else pending

/-- One entry of the router's `multiple_expenses` list (a dict with optional
amount, item and category). -/
structure ExpenseTriple where
  amount : Option ℚ
  item : Option String
  category : Option String
deriving DecidableEq, Repr

/-- One entry of the `logged_expenses` list built by
`log_multiple_expenses_tool` (amount, item, `category or "misc"`). -/
structure LoggedEntry where
  amount : ℚ
  item : String
  category : String
deriving DecidableEq, Repr

/-- Result of `log_multiple_expenses_tool`: status tag, logged and failed
lists, pending expense in memory after the call, database after the call. -/
structure MultiToolOutput where
  status : String
  logged : List LoggedEntry
  failed : List ExpenseTriple
  pending : Option PendingExpense
  db : Ledger
deriving DecidableEq, Repr

/-- Whether a triple survives validation in `log_multiple_expenses_tool`
(graph.py line 754): both amount and item must be truthy. -/
def tripleValid (e : ExpenseTriple) : Bool :=
  truthyQ e.amount && truthyS e.item

/-- The category the multi-expense loop assigns to a triple (graph.py lines
750-751 and 760): auto-mapped from the item when falsy, then `or "misc"`. -/
def tripleCategory (e : ExpenseTriple) : String :=
  categoryOrMisc (if !truthyS e.category && truthyS e.item
    then some (map_category e.item) else e.category)

/-- The `logged_expenses` entry a valid triple produces (graph.py lines 768-772). -/
def tripleLogged (e : ExpenseTriple) : LoggedEntry :=
  ⟨e.amount.getD 0, e.item.getD "", tripleCategory e⟩

/-- The ledger row a valid triple commits (graph.py lines 760-767). -/
def tripleRow (uid : ℕ) (e : ExpenseTriple) : LedgerExpense :=
  ⟨uid, tripleCategory e, e.amount.getD 0, e.item.getD ""⟩

/-- Loop body of `log_multiple_expenses_tool` (graph.py lines 740-776): an
invalid triple is accumulated as failed; a valid one commits, or is
accumulated as failed when the store throws (`db.fail`). -/
def multiStep (uid : ℕ) (acc : List LoggedEntry × List ExpenseTriple × Ledger)
    (e : ExpenseTriple) : List LoggedEntry × List ExpenseTriple × Ledger :=
  let (logged, failed, d) := acc
  if !tripleValid e then (logged, failed ++ [e], d)
  else if d.fail then (logged, failed ++ [e], d)
  else (logged ++ [tripleLogged e], failed, ⟨d.expenses ++ [tripleRow uid e], d.fail⟩)

/-- Embedding of `log_multiple_expenses_tool` (graph.py lines 710-806): error
on an invalid user id or an empty list; otherwise each triple is validated and
committed individually, and one combined result with status `success` reports
the logged and failed lists. The function never calls
`memory.set_pending_expense`, so the pending expense passes through unchanged. -/
def log_multiple_expenses_tool (userId : Option ℕ) (exps : List ExpenseTriple)
    (pending : Option PendingExpense) (db : Ledger) : MultiToolOutput :=
  match userId with
  | none => ⟨"error", [], [], pending, db⟩
  | some uid =>
    if exps = [] then ⟨"error", [], [], pending, db⟩
    else
      let r := exps.foldl (multiStep uid) ([], [], db)
      ⟨"success", r.1, r.2.1, pending, r.2.2⟩

/-- Embedding of `ConversationTurn` (memory.py lines 13-21); the free-form
`metadata` dict is not used anywhere and is omitted. -/
structure ConversationTurn where
  timestamp : ℚ
  user_message : String
  bot_response : Option String
  intent : Option String
  confidence : ℚ
deriving DecidableEq, Repr

/-- Embedding of `UserContext` (memory.py lines 23-65). The conversation
history is the dataclass field `deque(maxlen=10)`: note the capacity 10 is
hard-coded in the field default, independent of any configuration. -/
structure UserContext where
  phone_number : String
  name : Option String
  conversation_history : List ConversationTurn
  preferences : List (String × String)
  last_interaction : ℚ
  pending_expense : Option PendingExpense
deriving DecidableEq, Repr

/-- The hard-coded `maxlen` of the history deque (memory.py line 28). -/
def dequeMaxlen : ℕ := 10

/-- A freshly created `UserContext` (dataclass defaults, memory.py lines
23-31); `now` is the `time.time()` default of `last_interaction`. -/
def newUserContext (phone : String) (now : ℚ) : UserContext :=
  ⟨phone, none, [], [], now, none⟩

/-- Embedding of `UserContext.add_turn` (memory.py lines 33-44): append the
turn to the bounded deque (evicting from the front past `dequeMaxlen`) and
update `last_interaction` to the current time. -/
def UserContext.add_turn (c : UserContext) (now : ℚ) (msg : String)
    (resp : Option String) (intent : Option String) (conf : ℚ) : UserContext :=
  let h := c.conversation_history ++ [⟨now, msg, resp, intent, conf⟩]
  { c with
    conversation_history := if dequeMaxlen < h.length then h.drop (h.length - dequeMaxlen) else h,
    last_interaction := now }

/-- Embedding of `ConversationMemory` (memory.py lines 67-74): the configured
limits and the per-user context dict, modelled as an ordered association list
(Python dicts preserve insertion order). -/
structure ConversationMemory where
  max_history : ℕ
  ttl_seconds : ℚ
  user_contexts : List (String × UserContext)
deriving DecidableEq, Repr

/-- Replace the value bound to a key in an association list (a Python dict
store to an existing key keeps its position). -/
def updateAssoc (l : List (String × UserContext)) (k : String) (v : UserContext) :
    List (String × UserContext) :=
  l.map (fun kv => if kv.1 = k then (k, v) else kv)

/-- Embedding of `ConversationMemory.get_user_context` (memory.py lines
76-80): look the phone number up; when absent, insert a fresh context (at the
end, as a Python dict does) and return it. Returns the context together with
the possibly-extended store. -/
def ConversationMemory.get_user_context (m : ConversationMemory) (phone : String)
    (now : ℚ) : UserContext × ConversationMemory :=
  match m.user_contexts.lookup phone with
  | some c => (c, m)
  | none =>
    let c := newUserContext phone now
    (c, ⟨m.max_history, m.ttl_seconds, m.user_contexts ++ [(phone, c)]⟩)

/-- Embedding of `ConversationMemory.add_conversation_turn` (memory.py lines
82-93): get or create the context and append the turn. The name-extraction
branch for intent `introduction` (memory.py lines 90-93) only sets the `name`
field and preferences and is not modelled. -/
def ConversationMemory.add_conversation_turn (m : ConversationMemory) (phone : String)
    (now : ℚ) (msg : String) (resp : Option String) (intent : Option String)
    (conf : ℚ) : ConversationMemory :=
  let cm := m.get_user_context phone now
  let c := cm.1.add_turn now msg resp intent conf
  ⟨cm.2.max_history, cm.2.ttl_seconds, updateAssoc cm.2.user_contexts phone c⟩

/-- Embedding of `ConversationMemory.cleanup_expired_contexts` (memory.py
lines 139-150): delete every context whose age exceeds `ttl_seconds` strictly.
The Python function is annotated and returns `None`, which the second
component records: it is `none`, never a count. -/
def ConversationMemory.cleanup_expired_contexts (m : ConversationMemory) (now : ℚ) :
    ConversationMemory × Option ℕ :=
  (⟨m.max_history, m.ttl_seconds,
    m.user_contexts.filter (fun kv => !(decide (now - kv.2.last_interaction > m.ttl_seconds)))⟩,
   none)

/-- Append `n` conversation turns for one user (driver used to state the
history-bound claims; turn `i` is stamped at time `i`). -/
def appendTurns (m : ConversationMemory) (phone : String) (n : ℕ) : ConversationMemory :=
  (List.range n).foldl
    (fun m' i => m'.add_conversation_turn phone (i : ℚ) "msg" none none 0) m

/-- The opening curly brace character (written by code point to keep the
source free of literal braces). -/
def lbrace : Char := Char.ofNat 123

/-- The closing curly brace character. -/
def rbrace : Char := Char.ofNat 125

/-- Index of the first occurrence of a character (Python `str.find`, with
`none` for `-1`). -/
def firstIdx (l : List Char) (c : Char) : Option ℕ :=
  l.findIdx? (fun d => d = c)

/-- Index of the last occurrence of a character (Python `str.rfind`, with
`none` for `-1`). -/
def lastIdx (l : List Char) (c : Char) : Option ℕ :=
  (l.reverse.findIdx? (fun d => d = c)).map (fun k => l.length - 1 - k)

/-- The JSON-candidate extraction of `llm_router_node` (graph.py lines
304-309): strip the oracle output, find the first opening and last closing
brace, and slice between them when `last > first`; otherwise nothing. -/
def extract_json (resp : String) : Option String :=
  let t := pyStrip resp.toList
  match firstIdx t lbrace, lastIdx t rbrace with
  | some i, some j => if i < j then some (String.mk ((t.drop i).take (j - i + 1))) else none
  | _, _ => none

/-- The parsed shape the router reads out of the oracle's JSON (tool name,
intent, the `extracted_data` slots, and the `multiple_expenses` list). -/
structure RouterData where
  tool_name : Option String
  intent : Option String
  amount : Option ℚ
  item : Option String
  category : Option String
  multiple_expenses : List ExpenseTriple
deriving DecidableEq, Repr

/-- The fallback `action_data` of `llm_router_node` (graph.py lines 313-327),
used both when no JSON object is found and when decoding throws: tool
`clarification_tool`, intent `clarification`, empty `extracted_data`, and no
`multiple_expenses` key. -/
def fallbackData : RouterData :=
  ⟨some "clarification_tool", some "clarification", none, none, none, []⟩

/-- The routing decision written into the agent state (graph.py lines
329-341). -/
structure RoutingDecision where
  tool_name : String
  intent : String
  amount : Option ℚ
  item : Option String
  category : Option String
  multiple_expenses : List ExpenseTriple
deriving DecidableEq, Repr

/-- Embedding of the parsing tail of `llm_router_node` (graph.py lines
302-346). `decode` stands for `json.loads` followed by reading the dict's
fields; it returns `none` when decoding throws. When no JSON object is found,
or decoding fails, the fallback data is used; the state fields are then read
with their `.get` defaults. The embedding is a total function: the router
cannot raise on malformed oracle output. -/
def llm_router_decision (resp : String) (decode : String → Option RouterData) :
    RoutingDecision :=
  let action : RouterData :=
    match extract_json resp with
    | some s =>
      match decode s with
      | some d => d
      | none => fallbackData
    | none => fallbackData
  ⟨action.tool_name.getD "clarification_tool",
   action.intent.getD "clarification",
   action.amount, action.item, action.category,
   action.multiple_expenses⟩

lemma digit_ne_of_not_digit {c d : Char} (hc : c.isDigit = true) (hd : d.isDigit = false) :
    c ≠ d := fun he => by subst he; rw [hc] at hd; cases hd

lemma toLower_eq_self_of_digit {c : Char} (h : c.isDigit = true) : c.toLower = c := by
  simp [Char.isDigit] at h
  obtain ⟨h1, h2⟩ := h
  have h2' : c.val.toNat ≤ 57 := h2
  simp [Char.toLower, Char.toNat]
  intro h3 h4
  omega

lemma isWhitespace_eq_false_of_digit {c : Char} (h : c.isDigit = true) :
    c.isWhitespace = false := by
  have h1 := digit_ne_of_not_digit h (d := ' ') (by decide)
  have h2 := digit_ne_of_not_digit h (d := '\t') (by decide)
  have h3 := digit_ne_of_not_digit h (d := '\r') (by decide)
  have h4 := digit_ne_of_not_digit h (d := '\n') (by decide)
  simp [Char.isWhitespace, h1, h2, h3, h4]

lemma pyLower_eq_self {l : List Char} (h : ∀ c ∈ l, c.toLower = c) : pyLower l = l := by
  induction l with
  | nil => rfl
  | cons a t ih =>
    simp [pyLower] at ih ⊢
    exact ⟨h a (by simp), ih (fun c hc => h c (by simp [hc]))⟩

lemma dropWhile_eq_self_of_all {p : Char → Bool} {l : List Char}
    (h : ∀ c ∈ l, p c = false) : l.dropWhile p = l := by
  cases l with
  | nil => rfl
  | cons a t => simp [List.dropWhile_cons, h a (by simp)]

lemma pyStrip_eq_self {l : List Char} (h : ∀ c ∈ l, c.isWhitespace = false) :
    pyStrip l = l := by
  unfold pyStrip
  rw [dropWhile_eq_self_of_all h, dropWhile_eq_self_of_all (by simpa using h),
    List.reverse_reverse]

lemma removeAll_eq_self {c : Char} {l : List Char} (h : c ∉ l) : removeAll c l = l := by
  rw [removeAll, List.filter_eq_self]
  intro a ha
  simp
  intro he
  exact h (he ▸ ha)

lemma pyFloat?_digits{l : List Char} (hd : allDigits l = true) (hne : l ≠ []) :
    pyFloat? l = some ((digitsVal l : ℚ)) := by
  have hall : ∀ c ∈ l, c.isDigit = true := by simpa [allDigits, List.all_eq_true] using hd
  have hw : ∀ c ∈ l, c.isWhitespace = false := fun c hc => isWhitespace_eq_false_of_digit (hall c hc)
  obtain ⟨a, t, rfl⟩ : ∃ a t, l = a :: t := by
    cases l with
    | nil => exact absurd rfl hne
    | cons a t => exact ⟨a, t, rfl⟩
  have hna : a ≠ '-' := digit_ne_of_not_digit (hall a (by simp)) (by decide)
  have hnp : a ≠ '+' := digit_ne_of_not_digit (hall a (by simp)) (by decide)
  have h1 : ((a :: t).head? = some '-') = False := by simp [hna]
  have h2 : ((a :: t).head? = some '+') = False := by simp [hnp]
  have htw : (a :: t).takeWhile (fun c => decide (c ≠ '.')) = a :: t := by
    rw [List.takeWhile_eq_self_iff]
    intro c hc
    simpa using digit_ne_of_not_digit (hall c hc) (show ('.').isDigit = false by decide)
  have hdw : (a :: t).dropWhile (fun c => decide (c ≠ '.')) = [] := by
    rw [List.dropWhile_eq_nil_iff]
    intro c hc
    simpa using digit_ne_of_not_digit (hall c hc) (show ('.').isDigit = false by decide)
  unfold pyFloat?
  rw [pyStrip_eq_self hw]
  simp only [h1, h2, if_false, false_or, ite_false]
  rw [htw, hdw]
  rw [if_pos ⟨hne, hd⟩]
  rw [one_mul]

lemma not_mem_of_digits {s : List Char} (hall : ∀ c ∈ s, c.isDigit = true) {d : Char}
    (hd : d.isDigit = false) : d ∉ s :=
  fun hm => by rw [hall d hm] at hd; cases hd

lemma removeAll_append (c : Char) (l₁ l₂ : List Char) :
    removeAll c (l₁ ++ l₂) = removeAll c l₁ ++ removeAll c l₂ := by
  simp [removeAll, List.filter_append]

/-- C10: the amount parser is total (it is a Lean function, so it cannot
raise); a `k` suffix on a digit string multiplies its value by 1000 and an `m`
suffix by 1000000; a plain number with commas parses to its numeric value
(commas removed first); and empty, `None`, or non-numeric inputs yield `none`. -/
theorem parse_amount_total_spec :
    (∀ s : List Char, allDigits s = true → s ≠ [] →
        parse_amount (some (s ++ ['k'])) = some ((digitsVal s : ℚ) * 1000)) ∧
    (∀ s : List Char, allDigits s = true → s ≠ [] →
        parse_amount (some (s ++ ['m'])) = some ((digitsVal s : ℚ) * 1000000)) ∧
    (∀ s : List Char, (∀ c ∈ s, c.isDigit = true ∨ c = ',') → (∃ c ∈ s, c.isDigit = true) →
        parse_amount (some s) = some ((digitsVal (removeAll ',' s) : ℚ))) ∧
    parse_amount none = none ∧
    parse_amount (some []) = none ∧
    parse_amount (some ("invalid".toList)) = none := by
  refine ⟨?_, ?_, ?_, rfl, rfl, by decide⟩
  · intro s hd hne
    have hall : ∀ c ∈ s, c.isDigit = true := by simpa [allDigits, List.all_eq_true] using hd
    have hlow : ∀ c ∈ s ++ ['k'], c.toLower = c := by
      intro c hc
      rcases List.mem_append.mp hc with h | h
      · exact toLower_eq_self_of_digit (hall c h)
      · rw [List.mem_singleton.mp h]; decide
    have hws : ∀ c ∈ s ++ ['k'], c.isWhitespace = false := by
      intro c hc
      rcases List.mem_append.mp hc with h | h
      · exact isWhitespace_eq_false_of_digit (hall c h)
      · rw [List.mem_singleton.mp h]; decide
    have hknot : 'k' ∉ s := not_mem_of_digits hall (by decide)
    have hcnot : ',' ∉ s := not_mem_of_digits hall (by decide)
    have e1 : pyStrip (pyLower (s ++ ['k'])) = s ++ ['k'] := by
      rw [pyLower_eq_self hlow, pyStrip_eq_self hws]
    simp only [parse_amount, e1]
    rw [if_neg (show ¬(s ++ ['k'] = []) by simp),
      if_pos (show 'k' ∈ s ++ ['k'] from List.mem_append_right s (by simp)),
      removeAll_append, removeAll_eq_self hknot, show removeAll 'k' ['k'] = [] from rfl,
      List.append_nil, removeAll_eq_self hcnot, pyFloat?_digits hd hne]
    rfl
  · intro s hd hne
    have hall : ∀ c ∈ s, c.isDigit = true := by simpa [allDigits, List.all_eq_true] using hd
    have hlow : ∀ c ∈ s ++ ['m'], c.toLower = c := by
      intro c hc
      rcases List.mem_append.mp hc with h | h
      · exact toLower_eq_self_of_digit (hall c h)
      · rw [List.mem_singleton.mp h]; decide
    have hws : ∀ c ∈ s ++ ['m'], c.isWhitespace = false := by
      intro c hc
      rcases List.mem_append.mp hc with h | h
      · exact isWhitespace_eq_false_of_digit (hall c h)
      · rw [List.mem_singleton.mp h]; decide
    have hknot : 'k' ∉ s ++ ['m'] := by
      intro hm
      rcases List.mem_append.mp hm with h | h
      · exact not_mem_of_digits hall (by decide) h
      · exact absurd (List.mem_singleton.mp h) (by decide)
    have hmnot : 'm' ∉ s := not_mem_of_digits hall (by decide)
    have hcnot : ',' ∉ s := not_mem_of_digits hall (by decide)
    have e1 : pyStrip (pyLower (s ++ ['m'])) = s ++ ['m'] := by
      rw [pyLower_eq_self hlow, pyStrip_eq_self hws]
    simp only [parse_amount, e1]
    rw [if_neg (show ¬(s ++ ['m'] = []) by simp), if_neg hknot,
      if_pos (show 'm' ∈ s ++ ['m'] from List.mem_append_right s (by simp)),
      removeAll_append, removeAll_eq_self hmnot, show removeAll 'm' ['m'] = [] from rfl,
      List.append_nil, removeAll_eq_self hcnot, pyFloat?_digits hd hne]
    rfl
  · intro s hdc hex
    have hlow : ∀ c ∈ s, c.toLower = c := by
      intro c hc
      rcases hdc c hc with h | h
      · exact toLower_eq_self_of_digit h
      · rw [h]; decide
    have hws : ∀ c ∈ s, c.isWhitespace = false := by
      intro c hc
      rcases hdc c hc with h | h
      · exact isWhitespace_eq_false_of_digit h
      · rw [h]; decide
    have hknot : 'k' ∉ s := by
      intro hm
      rcases hdc 'k' hm with h | h <;> simp at h
    have hmnot : 'm' ∉ s := by
      intro hm
      rcases hdc 'm' hm with h | h <;> simp at h
    have hne : s ≠ [] := by
      obtain ⟨c, hc, _⟩ := hex
      intro he
      rw [he] at hc
      cases hc
    have hrd : allDigits (removeAll ',' s) = true := by
      rw [allDigits, List.all_eq_true]
      intro c hc
      have hcs := List.mem_of_mem_filter hc
      have hcne := List.of_mem_filter hc
      rcases hdc c hcs with h | h
      · exact h
      · rw [h] at hcne; simp at hcne
    have hrne : removeAll ',' s ≠ [] := by
      obtain ⟨c, hc, hcd⟩ := hex
      have hmem : c ∈ removeAll ',' s := by
        rw [removeAll, List.mem_filter]
        refine ⟨hc, by simpa using digit_ne_of_not_digit hcd (by decide)⟩
      intro he
      rw [he] at hmem
      cases hmem
    have e1 : pyStrip (pyLower s) = s := by
      rw [pyLower_eq_self hlow, pyStrip_eq_self hws]
    simp only [parse_amount, e1]
    rw [if_neg hne, if_neg hknot, if_neg hmnot, pyFloat?_digits hrd hrne]

/-- Witness for C10 at concrete inputs: the hypotheses hold for the digit
string `750` and the theorem computes `750k` to 750 * 1000. -/
theorem parse_amount_total_spec_witness :
    (allDigits ['7', '5', '0'] = true ∧ (['7', '5', '0'] : List Char) ≠ []) ∧
    parse_amount (some (['7', '5', '0'] ++ ['k'])) = some ((digitsVal ['7', '5', '0'] : ℚ) * 1000) :=
  ⟨⟨by decide, by decide⟩, parse_amount_total_spec.1 ['7', '5', '0'] (by decide) (by decide)⟩

/-- C1 (failing input): with pending amount 900 and the stop-word message `i`,
`log_expense_tool` re-stores the stale pending expense after the ambiguity
guard cleared it, and `clarification_tool` never clears pending at all — so
the pending expense is NOT none afterwards, contradicting the guard the code's
own comment (`Clear pending context for unclear messages`) announces. -/
theorem short_message_keeps_stale_pending :
    (log_expense_tool (some 1) none none none (some ⟨some 900, none, none⟩) "i"
        ⟨[], false⟩).pending = some ⟨some 900, none, none⟩ ∧
    (clarification_tool (some ⟨some 900, none, none⟩)).2 = some ⟨some 900, none, none⟩ :=
  ⟨by decide, rfl⟩

/-- C2 (counterexample): merging the pending expense (900, tea, food) with an
empty candidate does not return it unchanged — the category slot is dropped,
because the merge never reads the pending category. -/
theorem merge_empty_candidate_counterexample :
    merge_slots (some ⟨some 900, some "tea", some "food"⟩) ⟨none, none, none⟩
        ≠ ⟨some 900, some "tea", some "food"⟩ ∧
    (merge_slots (some ⟨some 900, some "tea", some "food"⟩) ⟨none, none, none⟩).category
        ≠ some "food" := by
  constructor <;> decide

/-- C2 (amended): the merge takes the candidate's amount and item when truthy,
falling back to the pending values, but the category slot is always the
candidate's; merging with an empty candidate therefore preserves amount and
item and drops the category. -/
theorem merge_slots_amount_item_only (p c : PendingExpense) :
    (merge_slots (some p) c).amount = (if truthyQ c.amount then c.amount else p.amount) ∧
    (merge_slots (some p) c).item = (if truthyS c.item then c.item else p.item) ∧
    (merge_slots (some p) c).category = c.category ∧
    merge_slots (some p) ⟨none, none, none⟩ = ⟨p.amount, p.item, none⟩ := by
  refine ⟨rfl, rfl, rfl, ?_⟩
  simp [merge_slots, merge_amount, merge_item, truthyQ, truthyS]

/-- C3: with pending amount 900 and a second message supplying the item
`popcorn`, the single-expense handler commits exactly one ledger row with
amount 900 and note `popcorn` and clears the pending expense; the final
response node then leaves the cleared pending state untouched. -/
theorem completion_commits_exactly_once :
    log_expense_tool (some 1) none (some "popcorn") none (some ⟨some 900, none, none⟩)
        "popcorn" ⟨[], false⟩
      = ⟨"success", [], none, ⟨[⟨1, "food", 900, "popcorn"⟩], false⟩⟩ ∧
    final_response_pending "log_expense" "success" none = none := by
  constructor
  · decide
  · rfl

/-- C4: on any complete-slot commit attempt (merged amount and item truthy,
message not caught by the ambiguity guard), a throwing store is caught and
converted into an error-tagged result, the ledger is unchanged, and the
pending expense after the attempt equals its value before it — both in the
handler and after the final response node. -/
theorem store_failure_preserves_pending (uid : ℕ) (a0 : Option ℚ) (i0 c0 : Option String)
    (p : Option PendingExpense) (msg : String) (db : Ledger)
    (hamt : truthyQ (merge_amount p a0) = true)
    (hitem : truthyS (merge_item p i0) = true)
    (hmsg : is_unclear_message msg = false)
    (hfail : db.fail = true) :
    log_expense_tool (some uid) a0 i0 c0 p msg db = ⟨"error", [], p, db⟩ ∧
    final_response_pending "log_expense" "error" p = p := by
  constructor
  · simp [log_expense_tool, hamt, hitem, hmsg, hfail]
  · simp [final_response_pending]

/-- Witness for C4: a concrete complete-slot commit against a failing store
keeps the pending expense (amount 900) intact. -/
theorem store_failure_preserves_pending_witness :
    truthyQ (merge_amount (some ⟨some 900, none, none⟩) none) = true ∧
    truthyS (merge_item (some ⟨some 900, none, none⟩) (some "popcorn")) = true ∧
    is_unclear_message "popcorn" = false ∧
    (⟨[], true⟩ : Ledger).fail = true ∧
    log_expense_tool (some 1) none (some "popcorn") none (some ⟨some 900, none, none⟩)
        "popcorn" ⟨[], true⟩
      = ⟨"error", [], some ⟨some 900, none, none⟩, ⟨[], true⟩⟩ :=
  ⟨by decide, by decide, by decide, rfl,
    (store_failure_preserves_pending 1 none (some "popcorn") none
      (some ⟨some 900, none, none⟩) "popcorn" ⟨[], true⟩
      (by decide) (by decide) (by decide) rfl).1⟩

/-- Loop invariant of the multi-expense handler: with a healthy store, the
fold accumulates exactly the valid triples as logged entries and ledger rows,
and exactly the invalid ones as failures, in order. -/
lemma multiStep_foldl (uid : ℕ) (exps : List ExpenseTriple) :
    ∀ (logged : List LoggedEntry) (failed : List ExpenseTriple) (d : Ledger),
      d.fail = false →
      exps.foldl (multiStep uid) (logged, failed, d) =
        (logged ++ (exps.filter tripleValid).map tripleLogged,
         failed ++ exps.filter (fun e => !tripleValid e),
         ⟨d.expenses ++ (exps.filter tripleValid).map (tripleRow uid), d.fail⟩) := by
  induction exps with
  | nil => intro logged failed d hd; simp
  | cons e t ih =>
    intro logged failed d hd
    rw [List.foldl_cons]
    cases hv : tripleValid e with
    | false =>
      have hstep : multiStep uid (logged, failed, d) e = (logged, failed ++ [e], d) := by
        simp [multiStep, hv]
      rw [hstep, ih _ _ _ hd]
      simp [List.filter_cons, hv]
    | true =>
      have hstep : multiStep uid (logged, failed, d) e =
          (logged ++ [tripleLogged e], failed, ⟨d.expenses ++ [tripleRow uid e], d.fail⟩) := by
        simp [multiStep, hv, hd]
      have hfd : (⟨d.expenses ++ [tripleRow uid e], d.fail⟩ : Ledger).fail = false := hd
      rw [hstep, ih _ _ _ hfd]
      simp [List.filter_cons, hv]

/-- C5: for every nonempty triple list and healthy store, the multi-expense
handler returns one combined success result in which the triples missing a
truthy amount or item are exactly the reported failures, the remaining triples
are committed individually in order, and the pending expense is untouched (the
handler never creates one). -/
theorem multi_expense_partial_never_pending (uid : ℕ) (exps : List ExpenseTriple)
    (p : Option PendingExpense) (db : Ledger) (hne : exps ≠ []) (hok : db.fail = false) :
    log_multiple_expenses_tool (some uid) exps p db =
      ⟨"success", (exps.filter tripleValid).map tripleLogged,
       exps.filter (fun e => !tripleValid e), p,
       ⟨db.expenses ++ (exps.filter tripleValid).map (tripleRow uid), db.fail⟩⟩ := by
  simp only [log_multiple_expenses_tool, if_neg hne]
  rw [multiStep_foldl uid exps [] [] db hok]
  simp

/-- Witness for C5: the triples (500, apples), (none, carrots), (200, bananas)
yield exactly 2 committed expenses and 1 reported failure in one result. -/
theorem multi_expense_partial_never_pending_witness :
    (([⟨some 500, some "apples", none⟩, ⟨none, some "carrots", none⟩,
        ⟨some 200, some "bananas", none⟩] : List ExpenseTriple) ≠ []) ∧
    (⟨[], false⟩ : Ledger).fail = false ∧
    log_multiple_expenses_tool (some 1)
        [⟨some 500, some "apples", none⟩, ⟨none, some "carrots", none⟩,
         ⟨some 200, some "bananas", none⟩] none ⟨[], false⟩
      = ⟨"success", [⟨500, "apples", "food"⟩, ⟨200, "bananas", "food"⟩],
         [⟨none, some "carrots", none⟩], none,
         ⟨[⟨1, "food", 500, "apples"⟩, ⟨1, "food", 200, "bananas"⟩], false⟩⟩ := by
  refine ⟨by decide, rfl, ?_⟩
  rw [multi_expense_partial_never_pending 1 _ none ⟨[], false⟩ (by decide) rfl]
  decide

/-- C6 (failing input): a `ConversationMemory` configured with `max_history =
5` still holds 6 turns after 6 appends — the deque capacity is hard-coded to
10 (memory.py line 28) and the configured capacity is never applied. With the
hard-coded 10, appending 15 turns leaves exactly the last 10 (turns 5..14),
i.e. eviction is oldest-first but bounded by 10, not by the configuration. -/
theorem history_bound_ignores_configured_capacity :
    (((appendTurns ⟨5, 3600, []⟩ "u" 6).get_user_context "u" 0).1.conversation_history.length
        = 6) ∧
    ¬(6 ≤ 5) ∧
    (((appendTurns ⟨10, 3600, []⟩ "u" 15).get_user_context "u" 0).1.conversation_history.map
        (fun t => t.timestamp)
      = [(5 : ℚ), 6, 7, 8, 9, 10, 11, 12, 13, 14]) := by
  refine ⟨by decide, by decide, by decide⟩

/-- A key absent from the key column of an association list has no binding. -/
lemma lookup_eq_none_of_keys {l : List (String × UserContext)} {k : String}
    (h : ∀ q ∈ l, k ≠ q.1) : l.lookup k = none := by
  rw [List.lookup_eq_none_iff]
  intro q hq
  simpa using h q hq

/-- Lookup in a filtered association list with duplicate-free keys: the
binding survives exactly when it satisfies the filter. -/
lemma lookup_filter {p : String × UserContext → Bool} :
    ∀ (l : List (String × UserContext)) (k : String), (l.map Prod.fst).Nodup →
      (l.filter p).lookup k =
        (match l.lookup k with
         | some v => if p (k, v) then some v else none
         | none => none) := by
  intro l
  induction l with
  | nil => intro k _; rfl
  | cons a t ih =>
    intro k hnd
    obtain ⟨ka, va⟩ := a
    rw [List.map_cons, List.nodup_cons] at hnd
    obtain ⟨ha, hnd'⟩ := hnd
    by_cases hk : k = ka
    · subst hk
      rw [List.filter_cons]
      by_cases hp : p (k, va)
      · rw [if_pos hp]
        simp only [List.lookup_cons_self, hp, if_true]
      · rw [if_neg hp]
        have hnone : List.lookup k (t.filter p) = none := by
          refine lookup_eq_none_of_keys ?_
          intro q hq hkq
          refine ha ?_
          show k ∈ List.map Prod.fst t
          rw [hkq]
          exact List.mem_map_of_mem Prod.fst (List.mem_of_mem_filter hq)
        rw [hnone]
        simp only [List.lookup_cons_self, hp, if_false, Bool.false_eq_true]
    · have hbeq : (k == ka) = false := by simpa using hk
      rw [List.filter_cons]
      have hsk : List.lookup k ((ka, va) :: t) = List.lookup k t := by
        rw [List.lookup_cons, hbeq]
      rw [hsk]
      by_cases hp : p (ka, va)
      · rw [if_pos hp]
        have hskf : List.lookup k ((ka, va) :: t.filter p) = List.lookup k (t.filter p) := by
          rw [List.lookup_cons, hbeq]
        rw [hskf]
        exact ih k hnd'
      · rw [if_neg hp]
        exact ih k hnd'

/-- C7 (counterexample): sweeping a store holding one stale session removes
it, but the function's return value is `none` — `cleanup_expired_contexts` is
annotated `-> None` and returns no count. -/
theorem sweep_returns_none_counterexample :
    ((⟨10, 3600, [("u", newUserContext "u" 0)]⟩ :
        ConversationMemory).cleanup_expired_contexts 5000).1.user_contexts = [] ∧
    ((⟨10, 3600, [("u", newUserContext "u" 0)]⟩ :
        ConversationMemory).cleanup_expired_contexts 5000).2 = none := by
  constructor
  · show List.filter _ _ = []
    rw [List.filter_cons]
    norm_num [newUserContext]
  · rfl

/-- C7 (amended): the sweep removes exactly the sessions whose age strictly
exceeds the TTL — after it, a session is found iff it was present and not
stale — but it returns `none`, not the count removed. -/
theorem sweep_removes_exactly_stale (m : ConversationMemory) (now : ℚ) (phone : String)
    (hnd : (m.user_contexts.map Prod.fst).Nodup) :
    ((m.cleanup_expired_contexts now).1.user_contexts.lookup phone =
      (match m.user_contexts.lookup phone with
       | some c => if now - c.last_interaction > m.ttl_seconds then none else some c
       | none => none)) ∧
    (m.cleanup_expired_contexts now).2 = none := by
  constructor
  · show (m.user_contexts.filter _).lookup phone = _
    rw [lookup_filter m.user_contexts phone hnd]
    cases m.user_contexts.lookup phone with
    | none => rfl
    | some c =>
      by_cases h : now - c.last_interaction > m.ttl_seconds <;> simp [h]
  · rfl

/-- Witness for C7: in a store with one session last touched at time 0,
sweeping at time 5000 with TTL 3600 leaves the session absent. -/
theorem sweep_removes_exactly_stale_witness :
    (([("u", newUserContext "u" 0)].map Prod.fst).Nodup) ∧
    ((⟨10, 3600, [("u", newUserContext "u" 0)]⟩ :
        ConversationMemory).cleanup_expired_contexts 5000).1.user_contexts.lookup "u"
      = none := by
  refine ⟨by simp, ?_⟩
  have h := (sweep_removes_exactly_stale ⟨10, 3600, [("u", newUserContext "u" 0)]⟩
    5000 "u" (by simp)).1
  rw [h]
  simp only [List.lookup_cons_self]
  norm_num [newUserContext]

/-- C8: whenever the oracle output yields no JSON object or the decode step
fails, the router decision degrades to the clarification tool with intent
`clarification` and no extracted slots; the embedded router is a total
function, so it cannot raise. -/
theorem router_malformed_falls_back (resp : String) (decode : String → Option RouterData)
    (h : (extract_json resp).bind decode = none) :
    llm_router_decision resp decode =
      ⟨"clarification_tool", "clarification", none, none, none, []⟩ := by
  unfold llm_router_decision
  cases hej : extract_json resp with
  | none => rfl
  | some s =>
    rw [hej, Option.some_bind] at h
    simp [h, fallbackData]

/-- Witness for C8: a prose-only oracle output produces the clarification
fallback decision. -/
theorem router_malformed_falls_back_witness :
    ((extract_json "the oracle returned prose with no json object").bind
        (fun _ => (none : Option RouterData)) = none) ∧
    llm_router_decision "the oracle returned prose with no json object"
        (fun _ => (none : Option RouterData))
      = ⟨"clarification_tool", "clarification", none, none, none, []⟩ :=
  ⟨by decide, router_malformed_falls_back _ _ (by decide)⟩

/-- Appending a fresh key to an association list makes it found. -/
lemma lookup_append_right_self {l : List (String × UserContext)} {k : String}
    {v : UserContext} (h : l.lookup k = none) : (l ++ [(k, v)]).lookup k = some v := by
  rw [List.lookup_append, h, Option.none_or, List.lookup_cons_self]

/-- C9: `get_user_context` creates the session when the identifier is absent
(appending exactly one fresh context and changing nothing else), and any
repeated call for the same identifier returns the same context instance and
leaves the store exactly as it was. -/
theorem get_user_context_idempotent (m : ConversationMemory) (phone : String)
    (now now' : ℚ) :
    (m.user_contexts.lookup phone = none →
        (m.get_user_context phone now).2.user_contexts
          = m.user_contexts ++ [(phone, newUserContext phone now)]) ∧
    (m.get_user_context phone now).2.get_user_context phone now'
      = ((m.get_user_context phone now).1, (m.get_user_context phone now).2) := by
  cases hl : m.user_contexts.lookup phone with
  | some c =>
    constructor
    · intro h
      simp at h
    · simp [ConversationMemory.get_user_context, hl]
  | none =>
    constructor
    · intro _
      simp [ConversationMemory.get_user_context, hl]
    · simp [ConversationMemory.get_user_context, hl, lookup_append_right_self hl]

/-- Witness for C9: creating then re-fetching the session for `u` on an empty
store returns the same instance with no further store change. -/
theorem get_user_context_idempotent_witness :
    ((⟨10, 3600, []⟩ : ConversationMemory).get_user_context "u" 0).2.user_contexts
        = [] ++ [("u", newUserContext "u" 0)] ∧
    (((⟨10, 3600, []⟩ : ConversationMemory).get_user_context "u" 0).2.get_user_context "u" 7)
      = (((⟨10, 3600, []⟩ : ConversationMemory).get_user_context "u" 0).1,
         ((⟨10, 3600, []⟩ : ConversationMemory).get_user_context "u" 0).2) :=
  ⟨(get_user_context_idempotent ⟨10, 3600, []⟩ "u" 0 7).1 rfl,
   (get_user_context_idempotent ⟨10, 3600, []⟩ "u" 0 7).2⟩
